import Mathlib

/-!
# Verification of `cxx/assets/clang_format_sample.cpp`

A shallow embedding of the functions of the sample file that have a body
(`is_sorted`, `do_somethings_and_return`, the two `SampleClass` constructors,
`do_nothing`, `get_one_line_function`, `test::runner::main`) and the
properties the specification states about them.

Conventions of the embedding:

* `std::uint32_t` values are `Nat`, reduced modulo `2 ^ 32` after every
  arithmetic operation; `int` values are `Int`.
* Operations that can fail in C++ (`%` with a zero divisor, indexing a string
  past its end) and loops return in `Except Fault`; a `while` loop takes fuel.
* Text written to standard output (by `printf` and by `std::cout`) is appended
  to `World.stdout`.
* The operations on the `float` parameter (conversion to `std::uint32_t`,
  comparison with an unsigned value) are taken as the parameter `FloatOps`.
  The conversion is undefined in C++ when the truncated value does not fit
  `std::uint32_t` (NaN, the infinities, values `<= -1` or `>= 2 ^ 32`);
  `FloatOps.cast_defined` tells where it is defined. The compiled code does
  not stop at an undefined conversion: it goes on with some value, so the
  embedding goes on with the value `FloatOps.cast_uint32` gives and records
  the fault `undefined_conversion` in `World.undefined`.
-/

set_option linter.unusedVariables false

namespace ClangFormatSample

/-! ## State shared by the functions of the file -/

/-- The functions of the file that have a body. -/
inductive Fn
  | is_sorted
  | do_somethings_and_return
  | SampleClass_default
  | SampleClass_int
  | do_nothing
  | get_one_line_function
  | main
  deriving DecidableEq, Repr

/-- The ways the embedded code can fail: an index past the end of a string, a
zero divisor, a loop that has not exited when the fuel is spent, and a
conversion of a `float` whose truncated value does not fit the target type. -/
inductive Fault
  | index_out_of_range
  | division_by_zero
  | out_of_fuel
  | undefined_conversion
  deriving DecidableEq, Repr

/-- What outlives a call: the namespace-scope variable `g_anonymous`
(line 51), the text written to standard output so far, the log of the
functions of the file entered so far (a function appends its own name when it
is entered), and the log of the undefined operations reached so far. -/
structure World where
  g_anonymous : Int
  stdout : String
  calls : List Fn
  undefined : List Fault
  deriving DecidableEq, Repr

/-- Entering a function of the file: its name goes to the call log. -/
def enter (f : Fn) (w : World) : World :=
  { w with calls := w.calls ++ [f] }

/-! ## Macros (lines 30-35) and library constants -/

/-- Line 30, `#define BIT_MASK 0xDEADBEAF`: the literal does not fit `int`, so
it is an `unsigned int`. -/
def BIT_MASK : Nat := 0xDEADBEAF

/-- Line 31. -/
def SHORT_NAME : Int := 42

/-- Line 32. -/
def LONGER_NAME : Int := 0x007f

/-- Line 33. -/
def EVEN_LONGER_NAME : Int := 2

/-- Line 34, `#define FOO(x) ((x) * (x))`. -/
def FOO (x : Int) : Int := x * x

/-- Line 35, `#define BAR(y, z) ((y) + (z))`. -/
def BAR (y z : Int) : Int := y + z

/-- The macro `EXIT_SUCCESS` of the library header `<cstdlib>`, which the file
includes at line 10; its value is 0. -/
def EXIT_SUCCESS : Int := 0

/-! ## Machine integers -/

/-- Reduction of a value to `std::uint32_t`. -/
def to_uint32 (n : Nat) : Nat := n % 2 ^ 32

/-- An `unsigned int` read back as an `int` (what `printf` does with an
unsigned argument of a `%d` conversion): the same 32 bits in two's
complement. -/
def as_int (u : Nat) : Int :=
  if u % 2 ^ 32 < 2 ^ 31 then ((u % 2 ^ 32 : Nat) : Int) else ((u % 2 ^ 32 : Nat) : Int) - 2 ^ 32

/-- The operator `%` on unsigned operands; a zero divisor is a fault. -/
def checked_mod (a b : Nat) : Except Fault Nat :=
  if b = 0 then .error .division_by_zero else .ok (a % b)

/-- The operator `%` on `int` operands (the quotient is truncated towards
zero); a zero divisor is a fault. -/
def checked_imod (a b : Int) : Except Fault Int :=
  if b = 0 then .error .division_by_zero else .ok (Int.tmod a b)

/-- The two operations the file applies to its `float` parameter:
`static_cast<std::uint32_t>(x)` and `x > n` for an unsigned `n`.
`cast_defined x` tells whether the conversion of `x` is defined, which it is
when the truncation of `x` fits `std::uint32_t` (`-1 < x < 2 ^ 32`; not for
NaN or an infinity); `cast_uint32 x` is the value the conversion yields, which
is the truncation of `x` where the conversion is defined and any value
elsewhere. -/
structure FloatOps (F : Type) where
  cast_uint32 : F → Nat
  cast_defined : F → Bool
  gt_uint32 : F → Nat → Bool

/-- The expression `static_cast<std::uint32_t>(x)`: a value of
`std::uint32_t`, and the world after the conversion, in which the fault
`undefined_conversion` is recorded when the conversion of `x` is undefined. -/
def static_cast_uint32 {F : Type} (fl : FloatOps F) (x : F) (w : World) : Nat × World :=
  (to_uint32 (fl.cast_uint32 x),
    if fl.cast_defined x then w
    else { w with undefined := w.undefined ++ [Fault.undefined_conversion] })

/-! ## Library: `std::string`, `std::map`, `printf`, `std::cout` -/

/-- The expression `s[pos]` of `std::string`: the character at `pos`, the
null character at `pos == s.size()`, a fault beyond. -/
def string_index (s : String) (pos : Nat) : Except Fault Char :=
  if h : pos < s.data.length then .ok s.data[pos]
  else if pos = s.data.length then .ok (Char.ofNat 0)
  else .error .index_out_of_range

/-- The assignment `s[pos] = c` of `std::string`. -/
def string_assign (s : String) (pos : Nat) (c : Char) : Except Fault String :=
  if pos < s.data.length then .ok (String.mk (s.data.set pos c))
  else .error .index_out_of_range

/-- A `std::map<std::string, std::int32_t>`: its entries in the order an
iteration visits them, which is the ascending order of the keys. -/
structure StdMap where
  entries : List (String × Int)
  ascending : entries.Pairwise (fun a b => a.1.data < b.1.data)

/-- An argument of `printf`. -/
inductive PrintfArg
  | str (s : String)
  | int (i : Int)
  | uint (u : Nat)

/-- The text one conversion of `printf` produces for one argument: `%s` for
a string, `%d` for an `int`, and `%d` for an `unsigned int`, which is read back
as an `int`. -/
def convert (d : Char) : PrintfArg → Option (List Char)
  | PrintfArg.str s => if d = 's' then some s.data else none
  | PrintfArg.int i => if d = 'd' then some (toString i).data else none
  | PrintfArg.uint u => if d = 'd' then some (toString (as_int u)).data else none

/-- The text `printf` produces from a format and its arguments, for the
conversions the file uses. -/
def format : List Char → List PrintfArg → List Char
  | [], _ => []
  | [c], _ => [c]
  | c :: d :: rest, args =>
    if c = '%' then
      match args with
      | a :: args' =>
        match convert d a with
        | some text => text ++ format rest args'
        | none => c :: format (d :: rest) args
      | [] => c :: format (d :: rest) args
    else c :: format (d :: rest) args

/-- The call `printf(fmt, args...)`. -/
def printf (w : World) (fmt : String) (args : List PrintfArg) : World :=
  { w with stdout := w.stdout ++ String.mk (format fmt.data args) }

/-- The statement `std::cout << a << b << ...`. -/
def cout (w : World) (items : List String) : World :=
  { w with stdout := items.foldl (fun acc s => acc ++ s) w.stdout }

/-! ## `is_sorted` (lines 55-58) -/

/-- The algorithm `std::adjacent_find(first, last, pred)` on the range whose
remaining elements are the list and whose current position is `first`: the
position of the first element for which `pred` holds with its successor, and
`last` when there is none. -/
def adjacent_find {T : Type} (pred : T → T → Bool) : List T → Nat → Nat
  | [], first => first
  | [_], first => first + 1
  | a :: b :: rest, first =>
    if pred a b then first else adjacent_find pred (b :: rest) (first + 1)

/-- Lines 55-58: `std::adjacent_find(array, array + size, std::greater<T>())
== array + size`; positions are offsets from `array`. -/
def is_sorted {T : Type} [LT T] [DecidableRel (fun (a b : T) => a > b)]
    (array : List T) : Bool :=
  adjacent_find (fun a b => decide (a > b)) array 0 == 0 + array.length

/-! ## `do_somethings_and_return` (lines 62-178) -/

/-- The three branches of the statement at lines 98-109. -/
inductive Branch
  | if_branch
  | else_if_branch
  | else_branch
  deriving DecidableEq, Repr

/-- The condition of the `else if` at line 102: `3456 % 7 == 3`. -/
def else_if_condition : Except Fault Bool := do
  let r ← checked_imod 3456 7
  pure (r == 3)

/-- The branch the statement at lines 98-109 takes. -/
def select_branch (long_name_for_parameter_1 : Nat) : Except Fault Branch :=
  if long_name_for_parameter_1 == 0 then pure Branch.if_branch
  else do
    let c ← else_if_condition
    if c then pure Branch.else_if_branch else pure Branch.else_branch

/-- The text the `else if` branch writes first (line 103). -/
def else_if_message : String := "You are in the 'else if' branch."

/-- Lines 98-109: the statement `if / else if / else`. -/
def if_else_chain (long_name_for_parameter_1 : Nat) (some_pointer : Option String)
    (w : World) : Except Fault World := do
  let b ← select_branch long_name_for_parameter_1
  match b with
  | Branch.if_branch => pure w
  | Branch.else_if_branch =>
    pure (cout w [else_if_message, "Say: '", some_pointer.getD "", "' three times", "\n"])
  | Branch.else_branch => pure w

/-- Lines 117-119: `while (decl_b < 5) { decl_b++; }`. The variable is a
`float` that holds small whole numbers, which `float` represents exactly. -/
def while_decl_b : Nat → Int → Except Fault Int
  | 0, _ => .error .out_of_fuel
  | fuel + 1, decl_b =>
    if decl_b < 5 then while_decl_b fuel (decl_b + 1) else .ok decl_b

/-- Lines 141-144: the condition of the `if` that writes "Huh!", with the
short-circuit evaluation of `&&` and `||`. -/
def huh_condition (decl_b decl_aaa assign_b assign_ccc assign_aaaa : Int)
    (long_name_for_local_variable_1 long_name_for_local_variable_2 : Nat)
    (some_pointer : Option String) : Except Fault Bool :=
  if decl_b > 5 && decl_aaa != 42 && (decl_aaa ≤ decl_b || assign_b > assign_ccc) then pure true
  else do
    let r1 ← checked_imod assign_aaaa 42
    if r1 != 0 then pure true
    else do
      let r2 ← checked_mod long_name_for_local_variable_1 873
      let both ← (if r2 != 0 then do
          let r3 ← checked_imod assign_aaaa 42
          pure (r3 != 0)
        else pure false : Except Fault Bool)
      if both then pure true
      else do
        let r4 ← checked_mod long_name_for_local_variable_2 873
        if r4 != 0 then pure true
        else do
          let r5 ← checked_imod (decl_aaa * 12312) 23485
          if r5 != 9873 then pure true
          else pure (some_pointer != none)

/-- Lines 148-162: the `switch` on `delc_ccc[0]`. -/
def switch_delc_ccc (delc_ccc : String) : Except Fault String := do
  let c ← string_index delc_ccc 0
  if c = 'a' then string_assign delc_ccc 0 'q'
  else if c = 'y' ∨ c = 'z' then pure delc_ccc
  else pure delc_ccc

/-- Lines 122-129: the initialisers of `long_name_for_local_variable_1` and
`long_name_for_local_variable_2`. The result is the two values and the world
after the conversions; the conversion of lines 127-129 is evaluated only when
the condition of the conditional expression is false. -/
def local_variables_1_2 {F : Type} (fl : FloatOps F) (long_name_for_parameter_1 : Nat)
    (long_name_for_parameter_3 : F) (w : World) : Except Fault (Nat × Nat × World) := do
  let c1 := static_cast_uint32 fl long_name_for_parameter_3 w
  let long_name_for_local_variable_1 : Nat := to_uint32 (long_name_for_parameter_1 + c1.1)
  let r ← checked_imod 4 235124
  if to_uint32 (to_uint32 (long_name_for_local_variable_1 * 7) + r.toNat) > 275645 then
    pure (long_name_for_local_variable_1, to_uint32 (long_name_for_parameter_1 + 897234), c1.2)
  else do
    let c2 := static_cast_uint32 fl long_name_for_parameter_3 c1.2
    let m ← checked_mod c2.1 1293402
    pure (long_name_for_local_variable_1, m, c2.2)

/-- The undefined operations a call of `do_somethings_and_return` reaches:
none when the conversion of `long_name_for_parameter_3` is defined; else the
conversion of lines 122-123, and the one of lines 127-129 when the condition
of the conditional expression is false. -/
def conversion_faults {F : Type} (fl : FloatOps F) (long_name_for_parameter_1 : Nat)
    (long_name_for_parameter_3 : F) : List Fault :=
  if fl.cast_defined long_name_for_parameter_3 then []
  else if to_uint32 (to_uint32 (to_uint32 (long_name_for_parameter_1
      + to_uint32 (fl.cast_uint32 long_name_for_parameter_3)) * 7) + 4) > 275645 then
    [Fault.undefined_conversion]
  else [Fault.undefined_conversion, Fault.undefined_conversion]

/-- Lines 166-174: the body of the loop over the map, for one entry. -/
def loop_body (w : World) (i : String × Int) : World :=
  let w := printf w "A short function call %s %s %d - %d\n"
    [PrintfArg.str "short", PrintfArg.str "ext", PrintfArg.int i.2, PrintfArg.uint BIT_MASK]
  printf w "A long function call %s %s %d - %d\n"
    [PrintfArg.str "xxxxxxxxxxxxxxxxxxxxxxxxxxxxxxxxx", PrintfArg.str "yyyyyyyyyyyyyyyyyy",
      PrintfArg.int i.2, PrintfArg.uint BIT_MASK]

/-- Lines 62-178. The result is the returned vector and the world after the
call. The locals that are declared and never read (`trail_a`, the two lambdas,
which are never called, `some_nonconst_pointer`, `cycle`) have no effect and
are left out. -/
def do_somethings_and_return {D F : Type} (fl : FloatOps F) (fuel : Nat)
    (long_name_for_parameter_1 : Nat) (long_name_for_parameter_2 : D)
    (long_name_for_parameter_3 : F) (long_name_for_parameter_4 : StdMap)
    (w : World) : Except Fault (List Nat × World) := do
  let w := enter Fn.do_somethings_and_return w
  let decl_aaa : Int := 12
  let decl_b : Int := 23
  let delc_ccc : String := "23"
  let assign_aaaa : Int := 12
  let assign_b : Int := 23
  let assign_ccc : Int := 23
  let trail_b : Int := 2
  let some_pointer : Option String := some "Hello"
  let list : List (String × Int) := []
  let w ← if_else_chain long_name_for_parameter_1 some_pointer w
  let decl_aaa : Int := if decl_aaa == 97 then 98 else decl_aaa
  let decl_b ← while_decl_b fuel decl_b
  let locals ← local_variables_1_2 fl long_name_for_parameter_1 long_name_for_parameter_3 w
  let long_name_for_local_variable_1 : Nat := locals.1
  let long_name_for_local_variable_2 : Nat := locals.2.1
  let w := locals.2.2
  let very_very_very_very_very_very_very_long_name : Nat := 0
  let break_val : Nat :=
    if very_very_very_very_very_very_very_long_name != 0 then 42
    else long_name_for_local_variable_1
  let break_val : Nat :=
    if to_uint32 (very_very_very_very_very_very_very_long_name * 2)
          == long_name_for_local_variable_1
        && fl.gt_uint32 long_name_for_parameter_3 long_name_for_local_variable_2 then 1
    else 0
  let c ← huh_condition decl_b decl_aaa assign_b assign_ccc assign_aaaa
    long_name_for_local_variable_1 long_name_for_local_variable_2 some_pointer
  let w := if c then printf w "Huh!\n" [] else w
  let delc_ccc ← switch_delc_ccc delc_ccc
  let w := long_name_for_parameter_4.entries.foldl loop_body w
  pure ([], w)

/-! ## `SampleClass` (lines 184-231) -/

/-- Lines 221-224: the unnamed struct of the member `protected_secrets`. -/
structure ProtectedSecrets where
  secret_name : String
  hidden_age : Nat
  deriving DecidableEq, Repr

/-- Lines 220-230: the data members of `SampleClass`, in declaration order. -/
structure SampleClass where
  protected_secrets : ProtectedSecrets
  m_a_variable : Int
  m_b_variable : Int
  m_c_variable : Int
  m_a_really_really_long_variable_name : Int
  deriving DecidableEq, Repr

/-- Lines 190-192: the default constructor, run on the storage `storage`. A
member without an initialiser (`hidden_age`,
`m_a_really_really_long_variable_name`) keeps the indeterminate value the
storage holds; `m_c_variable` takes its default member initialiser 49. -/
def SampleClass_default (storage : SampleClass) (w : World) : SampleClass × World :=
  ({ protected_secrets :=
       { secret_name := "", hidden_age := storage.protected_secrets.hidden_age },
     m_a_variable := 4,
     m_b_variable := 4,
     m_c_variable := 49,
     m_a_really_really_long_variable_name := storage.m_a_really_really_long_variable_name },
   enter Fn.SampleClass_default w)

/-- Lines 194-199: the constructor `explicit SampleClass(int a)`, run on the
storage `storage`. -/
def SampleClass_int (a : Int) (storage : SampleClass) (w : World) : SampleClass × World :=
  ({ protected_secrets :=
       { secret_name := "", hidden_age := storage.protected_secrets.hidden_age },
     m_a_variable := a,
     m_b_variable := 42,
     m_c_variable := 49,
     m_a_really_really_long_variable_name := 4 },
   printf (enter Fn.SampleClass_int w) "Hello " [])

/-- Line 204: `auto do_nothing() -> void {}`. -/
def do_nothing (this : SampleClass) (w : World) : SampleClass × World :=
  (this, enter Fn.do_nothing w)

/-- Lines 206-208: `get_one_line_function` returns 0. -/
def get_one_line_function (this : SampleClass) (w : World) : Int × SampleClass × World :=
  (0, this, enter Fn.get_one_line_function w)

/-! ## `test::runner::main` (lines 233-238) -/

/-- Lines 234-237: `return EXIT_SUCCESS;`. -/
def main (argc : Int) (argv : List String) (w : World) : Int × World :=
  (EXIT_SUCCESS, enter Fn.main w)

/-! ## Every operation of the file, as one step function -/

/-- The global state and one object of class `SampleClass`. -/
structure State where
  world : World
  object : SampleClass
  deriving DecidableEq, Repr

/-- A call of one of the functions of the file, with its arguments. -/
inductive Call (D F : Type)
  | is_sorted (array : List Int)
  | do_somethings_and_return (p1 : Nat) (p2 : D) (p3 : F) (p4 : StdMap)
  | SampleClass_default
  | SampleClass_int (a : Int)
  | do_nothing
  | get_one_line_function
  | main (argc : Int) (argv : List String)

/-- Whether the call is a call of a constructor. -/
def Call.is_constructor {D F : Type} : Call D F → Bool
  | Call.SampleClass_default => true
  | Call.SampleClass_int _ => true
  | _ => false

/-- The state after a call; the member functions and the constructors act on
the object of the state. -/
def exec {D F : Type} (fl : FloatOps F) (fuel : Nat) :
    Call D F → State → Except Fault State
  | Call.is_sorted array, s =>
    let r := is_sorted array
    pure { s with world := enter Fn.is_sorted s.world }
  | Call.do_somethings_and_return p1 p2 p3 p4, s => do
    let r ← do_somethings_and_return fl fuel p1 p2 p3 p4 s.world
    pure { s with world := r.2 }
  | Call.SampleClass_default, s =>
    let r := SampleClass_default s.object s.world
    pure { world := r.2, object := r.1 }
  | Call.SampleClass_int a, s =>
    let r := SampleClass_int a s.object s.world
    pure { world := r.2, object := r.1 }
  | Call.do_nothing, s =>
    let r := do_nothing s.object s.world
    pure { world := r.2, object := r.1 }
  | Call.get_one_line_function, s =>
    let r := get_one_line_function s.object s.world
    pure { world := r.2.2, object := r.2.1 }
  | Call.main argc argv, s =>
    let r := main argc argv s.world
    pure { s with world := r.2 }

/-! ## The text the specification states for `do_somethings_and_return` -/

/-- The two lines stated for one map entry of value `v`. -/
def stated_lines (v : Int) : String :=
  "A short function call short ext " ++ toString v ++ " - -559038801\n"
    ++ ("A long function call xxxxxxxxxxxxxxxxxxxxxxxxxxxxxxxxx yyyyyyyyyyyyyyyyyy "
      ++ toString v ++ " - -559038801\n")

/-- The lines stated for the entries of the map, in the order of the
entries. -/
def stated_entries : List (String × Int) → String
  | [] => ""
  | e :: rest => stated_lines e.2 ++ stated_entries rest

/-- The text stated for a whole call: "Huh!" once, then the two lines of every
entry. -/
def stated_output (entries : List (String × Int)) : String :=
  "Huh!\n" ++ stated_entries entries

/-! ## Sample inputs -/

/-- A model of the two `float` operations on whole numbers: truncation of a
non-negative value, and comparison. -/
def sample_float_ops : FloatOps Int :=
  { cast_uint32 := fun x => x.toNat,
    cast_defined := fun x => decide (0 ≤ x ∧ x < 2 ^ 32),
    gt_uint32 := fun x n => decide (x > (n : Int)) }

/-- A world before any call. -/
def sample_world : World :=
  { g_anonymous := 0, stdout := "", calls := [], undefined := [] }

/-- A state whose object holds zeros. -/
def sample_state : State :=
  { world := sample_world,
    object :=
      { protected_secrets := { secret_name := "", hidden_age := 0 },
        m_a_variable := 0,
        m_b_variable := 0,
        m_c_variable := 0,
        m_a_really_really_long_variable_name := 0 } }

/-! ## Lemmas on `is_sorted` -/

theorem adjacent_find_le {T : Type} (pred : T → T → Bool) (l : List T) (k : Nat) :
    adjacent_find pred l k ≤ k + l.length := by
  induction l generalizing k with
  | nil => simp [adjacent_find]
  | cons a t ih =>
    cases t with
    | nil => simp [adjacent_find]
    | cons b rest =>
      simp only [adjacent_find]
      split
      · omega
      · have := ih (k + 1)
        simp only [List.length_cons] at this ⊢
        omega

theorem adjacent_find_eq_last {T : Type} (pred : T → T → Bool) (l : List T) (k : Nat) :
    adjacent_find pred l k = k + l.length ↔
      ∀ i, ∀ h : i + 1 < l.length, pred l[i] l[i + 1] = false := by
  induction l generalizing k with
  | nil => simp [adjacent_find]
  | cons a t ih =>
    cases t with
    | nil => simp [adjacent_find]
    | cons b rest =>
      simp only [adjacent_find]
      constructor
      · intro h
        by_cases hp : pred a b = true
        · rw [if_pos hp] at h
          simp only [List.length_cons] at h
          omega
        · rw [if_neg hp] at h
          have h2 : adjacent_find pred (b :: rest) (k + 1) = (k + 1) + (b :: rest).length := by
            simp only [List.length_cons] at h ⊢
            omega
          have h3 := (ih (k + 1)).mp h2
          intro i hi
          cases i with
          | zero => simpa using hp
          | succ j =>
            have hj : j + 1 < (b :: rest).length := by
              simp only [List.length_cons] at hi ⊢
              omega
            simpa using h3 j hj
      · intro h
        have h0 : pred a b = false := by
          have := h 0 (by simp)
          simpa using this
        simp only [h0, Bool.false_eq_true, if_false]
        have h2 : adjacent_find pred (b :: rest) (k + 1) = (k + 1) + (b :: rest).length := by
          apply (ih (k + 1)).mpr
          intro i hi
          have := h (i + 1) (by simp only [List.length_cons] at hi ⊢; omega)
          simpa using this
        simp only [List.length_cons] at h2 ⊢
        omega

theorem is_sorted_iff {T : Type} [LinearOrder T] (array : List T) :
    is_sorted array = true ↔ ∀ i, ∀ h : i + 1 < array.length, array[i] ≤ array[i + 1] := by
  unfold is_sorted
  rw [beq_iff_eq, adjacent_find_eq_last]
  constructor
  · intro h i hi
    have := h i hi
    simpa using this
  · intro h i hi
    have := h i hi
    simpa using this

/-! ## Lemmas on the parts of `do_somethings_and_return` -/

theorem else_if_condition_eq : else_if_condition = Except.ok false := by
  rfl

theorem select_branch_zero : select_branch 0 = Except.ok Branch.if_branch := by
  rfl

theorem select_branch_nonzero (p1 : Nat) (h : p1 ≠ 0) :
    select_branch p1 = Except.ok Branch.else_branch := by
  unfold select_branch
  have h0 : (p1 == 0) = false := by simpa using h
  rw [h0, else_if_condition_eq]
  rfl

theorem if_else_chain_eq (p1 : Nat) (some_pointer : Option String) (w : World) :
    if_else_chain p1 some_pointer w = Except.ok w := by
  unfold if_else_chain
  by_cases h : p1 = 0
  · subst h
    rw [select_branch_zero]
    rfl
  · rw [select_branch_nonzero p1 h]
    rfl

theorem while_decl_b_eq (fuel : Nat) : while_decl_b (fuel + 1) 23 = Except.ok 23 := by
  simp [while_decl_b]

theorem huh_condition_eq (v1 v2 : Nat) (some_pointer : Option String) :
    huh_condition 23 12 23 23 12 v1 v2 some_pointer = Except.ok true := by
  unfold huh_condition
  rfl

theorem checked_mod_eq (a : Nat) : checked_mod a 1293402 = Except.ok (a % 1293402) := by
  rfl

theorem switch_delc_ccc_eq : switch_delc_ccc "23" = Except.ok "23" := by
  rfl

/-- The values and the world lines 122-129 yield. -/
theorem local_variables_1_2_eq {F : Type} (fl : FloatOps F) (p1 : Nat) (p3 : F) (w : World) :
    ∃ v1 v2 : Nat, local_variables_1_2 fl p1 p3 w
      = Except.ok (v1, v2, { w with undefined := w.undefined ++ conversion_faults fl p1 p3 }) := by
  have h4 : checked_imod 4 235124 = Except.ok 4 := rfl
  unfold local_variables_1_2 static_cast_uint32 conversion_faults
  simp only [h4, checked_mod_eq, bind, Except.bind, pure, Except.pure]
  have h44 : Int.toNat 4 = 4 := rfl
  rw [h44]
  cases hd : fl.cast_defined p3 <;>
    by_cases hc : to_uint32 (to_uint32 (to_uint32 (p1 + to_uint32 (fl.cast_uint32 p3)) * 7) + 4)
      > 275645
  · exact ⟨to_uint32 (p1 + to_uint32 (fl.cast_uint32 p3)), to_uint32 (p1 + 897234),
      by simp [hc]⟩
  · exact ⟨to_uint32 (p1 + to_uint32 (fl.cast_uint32 p3)),
      to_uint32 (fl.cast_uint32 p3) % 1293402, by simp [hc]⟩
  · exact ⟨to_uint32 (p1 + to_uint32 (fl.cast_uint32 p3)), to_uint32 (p1 + 897234),
      by simp [hc]⟩
  · exact ⟨to_uint32 (p1 + to_uint32 (fl.cast_uint32 p3)),
      to_uint32 (fl.cast_uint32 p3) % 1293402, by simp [hc]⟩

/-- The world after the loop of lines 165-175 has run over `entries`. -/
theorem do_somethings_and_return_eq {D F : Type} (fl : FloatOps F) (fuel : Nat)
    (p1 : Nat) (p2 : D) (p3 : F) (p4 : StdMap) (w : World) :
    do_somethings_and_return fl (fuel + 1) p1 p2 p3 p4 w
      = Except.ok ([], p4.entries.foldl loop_body
          (printf { enter Fn.do_somethings_and_return w with
              undefined := w.undefined ++ conversion_faults fl p1 p3 } "Huh!\n" [])) := by
  obtain ⟨v1, v2, hl⟩ := local_variables_1_2_eq fl p1 p3 (enter Fn.do_somethings_and_return w)
  unfold do_somethings_and_return
  have h12 : (if ((12 : Int) == 97) = true then (98 : Int) else 12) = 12 := rfl
  simp only [if_else_chain_eq, while_decl_b_eq, hl, h12, switch_delc_ccc_eq, bind, Except.bind,
    pure, Except.pure, huh_condition_eq, if_true]
  rfl

/-! ## Lemmas on the text written -/

theorem as_int_BIT_MASK : as_int BIT_MASK = -559038801 := by
  decide

theorem toString_BIT_MASK : toString (as_int BIT_MASK) = "-559038801" := by
  rw [as_int_BIT_MASK]
  rfl

theorem format_short (v : Int) :
    String.mk (format "A short function call %s %s %d - %d\n".data
      [PrintfArg.str "short", PrintfArg.str "ext", PrintfArg.int v, PrintfArg.uint BIT_MASK])
      = "A short function call short ext " ++ toString v ++ " - -559038801\n" := by
  apply String.ext
  simp only [String.data_append]
  simp [format, convert, toString_BIT_MASK]

theorem format_long (v : Int) :
    String.mk (format "A long function call %s %s %d - %d\n".data
      [PrintfArg.str "xxxxxxxxxxxxxxxxxxxxxxxxxxxxxxxxx", PrintfArg.str "yyyyyyyyyyyyyyyyyy",
        PrintfArg.int v, PrintfArg.uint BIT_MASK])
      = "A long function call xxxxxxxxxxxxxxxxxxxxxxxxxxxxxxxxx yyyyyyyyyyyyyyyyyy "
        ++ toString v ++ " - -559038801\n" := by
  apply String.ext
  simp only [String.data_append]
  simp [format, convert, toString_BIT_MASK]

theorem format_huh : String.mk (format "Huh!\n".data []) = "Huh!\n" := by
  rfl

theorem format_hello : String.mk (format "Hello ".data []) = "Hello " := by
  rfl

theorem loop_body_eq (w : World) (i : String × Int) :
    loop_body w i = { w with stdout := w.stdout ++ stated_lines i.2 } := by
  unfold loop_body printf stated_lines
  rw [format_short, format_long]
  simp only [String.append_assoc]

theorem foldl_loop_body_eq (entries : List (String × Int)) (w : World) :
    entries.foldl loop_body w = { w with stdout := w.stdout ++ stated_entries entries } := by
  induction entries generalizing w with
  | nil =>
    simp [stated_entries]
  | cons e rest ih =>
    rw [List.foldl_cons, ih, loop_body_eq]
    simp only [stated_entries, String.append_assoc]

/-- The world after a call of `do_somethings_and_return`. -/
theorem do_somethings_and_return_world {D F : Type} (fl : FloatOps F) (fuel : Nat)
    (p1 : Nat) (p2 : D) (p3 : F) (p4 : StdMap) (w : World) :
    do_somethings_and_return fl (fuel + 1) p1 p2 p3 p4 w
      = Except.ok ([], { g_anonymous := w.g_anonymous,
                         stdout := w.stdout ++ stated_output p4.entries,
                         calls := w.calls ++ [Fn.do_somethings_and_return],
                         undefined := w.undefined ++ conversion_faults fl p1 p3 }) := by
  rw [do_somethings_and_return_eq, foldl_loop_body_eq]
  unfold printf enter stated_output
  rw [format_huh]
  simp only [String.append_assoc]

/-! ## The character 'Y' does not occur in the text written -/

theorem ite_ne_of {c : Prop} [Decidable c] {a b y : Char} (ha : a ≠ y) (hb : b ≠ y) :
    (if c then a else b) ≠ y := by
  split <;> assumption

theorem digitChar_ne_Y (n : Nat) : Nat.digitChar n ≠ 'Y' := by
  unfold Nat.digitChar
  repeat (refine ite_ne_of (by decide) ?_)
  decide

theorem toDigitsCore_no_Y (fuel : Nat) :
    ∀ (n : Nat) (ds : List Char), 'Y' ∉ ds → 'Y' ∉ Nat.toDigitsCore 10 fuel n ds := by
  induction fuel with
  | zero =>
    intro n ds h
    simpa [Nat.toDigitsCore] using h
  | succ k ih =>
    intro n ds h
    have hd : 'Y' ∉ Nat.digitChar (n % 10) :: ds := by
      intro hm
      rcases List.mem_cons.mp hm with h1 | h1
      · exact digitChar_ne_Y (n % 10) h1.symm
      · exact h h1
    simp only [Nat.toDigitsCore]
    split
    · exact hd
    · exact ih _ _ hd

theorem toString_nat_no_Y (n : Nat) : 'Y' ∉ (toString n).data := by
  show 'Y' ∉ (Nat.repr n).data
  unfold Nat.repr Nat.toDigits
  exact toDigitsCore_no_Y _ _ _ (List.not_mem_nil _)

theorem toString_int_no_Y (v : Int) : 'Y' ∉ (toString v).data := by
  cases v with
  | ofNat m => exact toString_nat_no_Y m
  | negSucc m =>
    show 'Y' ∉ ("-" ++ toString (Nat.succ m)).data
    rw [String.data_append]
    intro h
    rcases List.mem_append.mp h with h1 | h1
    · revert h1
      decide
    · exact toString_nat_no_Y _ h1

theorem stated_lines_no_Y (v : Int) : 'Y' ∉ (stated_lines v).data := by
  unfold stated_lines
  simp only [String.data_append, List.mem_append, not_or]
  refine ⟨⟨⟨?_, toString_int_no_Y v⟩, ?_⟩, ⟨?_, toString_int_no_Y v⟩, ?_⟩ <;> decide

theorem stated_entries_no_Y (entries : List (String × Int)) :
    'Y' ∉ (stated_entries entries).data := by
  induction entries with
  | nil => decide
  | cons e rest ih =>
    unfold stated_entries
    rw [String.data_append]
    intro h
    rcases List.mem_append.mp h with h1 | h1
    · exact stated_lines_no_Y _ h1
    · exact ih h1

theorem stated_output_no_Y (entries : List (String × Int)) :
    'Y' ∉ (stated_output entries).data := by
  unfold stated_output
  rw [String.data_append]
  intro h
  rcases List.mem_append.mp h with h1 | h1
  · revert h1
    decide
  · exact stated_entries_no_Y _ h1

theorem else_if_message_absent (t : String) (h : 'Y' ∉ t.data) :
    ¬ (else_if_message.data <:+: t.data) := by
  intro hi
  apply h
  apply hi.subset
  decide

/-! ## The claims -/

/-- C1: for every `argc` and `argv`, `test::runner::main` returns
`EXIT_SUCCESS`, which is 0, and does nothing else: the text on standard output
and `g_anonymous` are as before the call, and the only function of the file
entered is `main` itself. -/
theorem main_returns_EXIT_SUCCESS (argc : Int) (argv : List String) (w : World) :
    (main argc argv w).1 = EXIT_SUCCESS ∧ EXIT_SUCCESS = 0
      ∧ (main argc argv w).2.stdout = w.stdout
      ∧ (main argc argv w).2.g_anonymous = w.g_anonymous
      ∧ (main argc argv w).2.calls = w.calls ++ [Fn.main] :=
  ⟨rfl, rfl, rfl, rfl, rfl⟩

/-- C2: for every value of its four parameters, `do_somethings_and_return`
returns, and what it returns is the empty vector. -/
theorem do_somethings_and_return_returns_empty {D F : Type} (fl : FloatOps F) (fuel : Nat)
    (long_name_for_parameter_1 : Nat) (long_name_for_parameter_2 : D)
    (long_name_for_parameter_3 : F) (long_name_for_parameter_4 : StdMap) (w : World) :
    (do_somethings_and_return fl (fuel + 1) long_name_for_parameter_1 long_name_for_parameter_2
        long_name_for_parameter_3 long_name_for_parameter_4 w).map Prod.fst
      = Except.ok [] := by
  rw [do_somethings_and_return_world]
  rfl

/-- C6: for every array of at least one element of a linearly ordered type,
`is_sorted` returns true exactly when the array is in non-decreasing order
(`array[i] <= array[i+1]` for every `i` with `i + 1 < size`); it returns true
for every one-element array and for every array whose neighbours are all
equal, and false when some element is greater than its successor. -/
theorem is_sorted_iff_nondecreasing {T : Type} [LinearOrder T] (array : List T)
    (hsize : 1 ≤ array.length) :
    (is_sorted array = true ↔ ∀ i, ∀ h : i + 1 < array.length, array[i] ≤ array[i + 1])
      ∧ (array.length = 1 → is_sorted array = true)
      ∧ ((∀ i, ∀ h : i + 1 < array.length, array[i] = array[i + 1]) → is_sorted array = true)
      ∧ ((∃ i, ∃ h : i + 1 < array.length, array[i] > array[i + 1])
          → is_sorted array = false) := by
  refine ⟨is_sorted_iff array, ?_, ?_, ?_⟩
  · intro h1
    rw [is_sorted_iff]
    intro i hi
    omega
  · intro heq
    rw [is_sorted_iff]
    intro i hi
    exact le_of_eq (heq i hi)
  · rintro ⟨i, hi, hgt⟩
    cases hs : is_sorted array with
    | false => rfl
    | true =>
      have := (is_sorted_iff array).mp hs i hi
      exact absurd hgt (not_lt.mpr this)

/-- Witness of C6: the array `{1, 2, 2, 5}` of `int`. -/
theorem is_sorted_iff_nondecreasing_witness :
    1 ≤ ([1, 2, 2, 5] : List Int).length
      ∧ is_sorted ([1, 2, 2, 5] : List Int) = true
      ∧ (is_sorted ([1, 2, 2, 5] : List Int) = true
          ↔ ∀ i, ∀ h : i + 1 < ([1, 2, 2, 5] : List Int).length,
              ([1, 2, 2, 5] : List Int)[i] ≤ ([1, 2, 2, 5] : List Int)[i + 1]) :=
  ⟨by decide, by decide, (is_sorted_iff_nondecreasing ([1, 2, 2, 5] : List Int) (by decide)).1⟩

/-- C7: the text `do_somethings_and_return` writes is determined by the map
alone: for every value of the other parameters the condition of lines 141-144
is true and the text appended to standard output is "Huh!" once, followed, for
each entry of the map in ascending key order, by the short line and the long
line with the value of the entry in decimal and `BIT_MASK` as the signed
32-bit number -559038801; nothing else is written. -/
theorem do_somethings_and_return_output {D F : Type} (fl : FloatOps F) (fuel : Nat)
    (long_name_for_parameter_1 : Nat) (long_name_for_parameter_2 : D)
    (long_name_for_parameter_3 : F) (long_name_for_parameter_4 : StdMap) (w : World) :
    (do_somethings_and_return fl (fuel + 1) long_name_for_parameter_1 long_name_for_parameter_2
        long_name_for_parameter_3 long_name_for_parameter_4 w).map (fun r => r.2.stdout)
      = Except.ok (w.stdout ++ stated_output long_name_for_parameter_4.entries)
      ∧ long_name_for_parameter_4.entries.Pairwise (fun a b => a.1.data < b.1.data)
      ∧ (∀ v1 v2 : Nat, huh_condition 23 12 23 23 12 v1 v2 (some "Hello") = Except.ok true)
      ∧ toString (as_int BIT_MASK) = "-559038801"
      ∧ (∀ (q1 : Nat) (q2 : D) (q3 : F),
          (do_somethings_and_return fl (fuel + 1) q1 q2 q3 long_name_for_parameter_4 w).map
              (fun r => r.2.stdout)
            = (do_somethings_and_return fl (fuel + 1) long_name_for_parameter_1
                long_name_for_parameter_2 long_name_for_parameter_3
                long_name_for_parameter_4 w).map (fun r => r.2.stdout)) := by
  refine ⟨?_, long_name_for_parameter_4.ascending, fun v1 v2 => huh_condition_eq v1 v2 _,
    toString_BIT_MASK, ?_⟩
  · rw [do_somethings_and_return_world]
    rfl
  · intro q1 q2 q3
    rw [do_somethings_and_return_world, do_somethings_and_return_world]
    rfl

/-- C8: the `else if` branch of `do_somethings_and_return` is unreachable:
`3456 % 7` is 5, so the condition `3456 % 7 == 3` is false; for every input
with `long_name_for_parameter_1 != 0` the final `else` branch is taken; the
statement of lines 98-109 writes nothing for any input, and the text a call
writes never contains "You are in the 'else if' branch.". -/
theorem else_if_branch_unreachable {D F : Type} (fl : FloatOps F) (fuel : Nat)
    (long_name_for_parameter_1 : Nat) (long_name_for_parameter_2 : D)
    (long_name_for_parameter_3 : F) (long_name_for_parameter_4 : StdMap) (w : World) :
    checked_imod 3456 7 = Except.ok 5
      ∧ else_if_condition = Except.ok false
      ∧ select_branch long_name_for_parameter_1
          = Except.ok (if long_name_for_parameter_1 = 0 then Branch.if_branch
              else Branch.else_branch)
      ∧ if_else_chain long_name_for_parameter_1 (some "Hello") w = Except.ok w
      ∧ ∃ written : String,
          (do_somethings_and_return fl (fuel + 1) long_name_for_parameter_1
              long_name_for_parameter_2 long_name_for_parameter_3 long_name_for_parameter_4
              w).map (fun r => r.2.stdout) = Except.ok (w.stdout ++ written)
            ∧ ¬ (else_if_message.data <:+: written.data) := by
  refine ⟨rfl, rfl, ?_, if_else_chain_eq _ _ w, stated_output long_name_for_parameter_4.entries,
    ?_, else_if_message_absent _ (stated_output_no_Y _)⟩
  · by_cases h : long_name_for_parameter_1 = 0
    · subst h
      rfl
    · rw [select_branch_nonzero _ h, if_neg h]
  · rw [do_somethings_and_return_world]
    rfl

/-- C4, as the code has it: every call returns; `g_anonymous` is left
unchanged by every function of the file; the fields of the object are left
unchanged by every function but the two constructors, which initialise them
(the default constructor sets `m_a_variable` and `m_b_variable` to 4,
`m_c_variable` to 49 and `secret_name` to the empty string; `SampleClass(int a)`
sets `m_a_variable` to `a`, `m_b_variable` to 42, `m_c_variable` to 49,
`m_a_really_really_long_variable_name` to 4 and `secret_name` to the empty
string; a field without an initialiser keeps what the storage holds); and
standard output is left unchanged by every function but
`do_somethings_and_return` and `SampleClass(int a)`, which append to it. -/
theorem frame_of_every_call {D F : Type} (fl : FloatOps F) (fuel : Nat) (c : Call D F)
    (s : State) :
    ∃ t : State, exec fl (fuel + 1) c s = Except.ok t
      ∧ t.world.g_anonymous = s.world.g_anonymous
      ∧ t.object =
          (match c with
            | Call.SampleClass_default =>
              { protected_secrets :=
                  { secret_name := "", hidden_age := s.object.protected_secrets.hidden_age },
                m_a_variable := 4,
                m_b_variable := 4,
                m_c_variable := 49,
                m_a_really_really_long_variable_name :=
                  s.object.m_a_really_really_long_variable_name }
            | Call.SampleClass_int a =>
              { protected_secrets :=
                  { secret_name := "", hidden_age := s.object.protected_secrets.hidden_age },
                m_a_variable := a,
                m_b_variable := 42,
                m_c_variable := 49,
                m_a_really_really_long_variable_name := 4 }
            | _ => s.object)
      ∧ t.world.stdout =
          (match c with
            | Call.do_somethings_and_return _ _ _ p4 =>
              s.world.stdout ++ stated_output p4.entries
            | Call.SampleClass_int _ => s.world.stdout ++ "Hello "
            | _ => s.world.stdout) := by
  cases c with
  | is_sorted array => exact ⟨_, rfl, rfl, rfl, rfl⟩
  | do_somethings_and_return p1 p2 p3 p4 =>
    refine ⟨{ s with world := { g_anonymous := s.world.g_anonymous,
                                stdout := s.world.stdout ++ stated_output p4.entries,
                                calls := s.world.calls ++ [Fn.do_somethings_and_return],
                                undefined :=
                                  s.world.undefined ++ conversion_faults fl p1 p3 } },
      ?_, rfl, rfl, rfl⟩
    show (do
        let r ← do_somethings_and_return fl (fuel + 1) p1 p2 p3 p4 s.world
        pure { s with world := r.2 } : Except Fault State) = _
    rw [do_somethings_and_return_world]
    rfl
  | SampleClass_default => exact ⟨_, rfl, rfl, rfl, rfl⟩
  | SampleClass_int a =>
    refine ⟨_, rfl, rfl, rfl, ?_⟩
    show (printf (enter Fn.SampleClass_int s.world) "Hello " []).stdout = _
    unfold printf enter
    rw [format_hello]
  | do_nothing => exact ⟨_, rfl, rfl, rfl, rfl⟩
  | get_one_line_function => exact ⟨_, rfl, rfl, rfl, rfl⟩
  | main argc argv => exact ⟨_, rfl, rfl, rfl, rfl⟩

/-- Counterexample to C4 as stated: the constructor `SampleClass(7)`, run on an
object whose fields hold zeros, writes outside its parameters and local
variables: the fields of the object are not left unchanged (`m_a_variable`
becomes 7) and "Hello " is written to standard output. -/
theorem SampleClass_int_writes_fields :
    ¬ ((exec sample_float_ops 1 (Call.SampleClass_int 7 : Call Unit Int) sample_state).map
          (fun t => t.object) = Except.ok sample_state.object)
      ∧ (exec sample_float_ops 1 (Call.SampleClass_int 7 : Call Unit Int) sample_state).map
          (fun t => (t.object.m_a_variable, t.world.stdout)) = Except.ok (7, "Hello ")
      ∧ (sample_state.object.m_a_variable, sample_state.world.stdout) = (0, "") := by
  refine ⟨?_, rfl, rfl⟩
  intro h
  have h2 : (Except.ok (SampleClass_int 7 sample_state.object sample_state.world).1
      : Except Fault SampleClass) = Except.ok sample_state.object := h
  injection h2 with h3
  revert h3
  decide

end ClangFormatSample
